import Mathlib

set_option linter.unusedSectionVars false

/-! Shallow embedding of `_shallow_off_gpomdp_estimator` from
`potion/estimation/offpolicy_gradients.py` and the helpers it uses from
`potion/common/misc_utils.py` and `potion/common/torch_utils.py`.

Tensors of shape N×H (trajectory × time) are embedded as functions
`Fin N → Fin H → α` and tensors of shape N×H×m as
`Fin N → Fin H → Fin m → α`, over a linear ordered field `α` (floating
point values are idealized as exact field elements; `torch.exp` is an
explicit parameter `expf`, instantiated with `Real.exp` in theorems that
need its analytic properties).  The policy object's mutable flat
parameter vector is embedded by explicit state passing, and Python
exceptions by `Except`/`Option` results. -/

namespace Potion

variable {α : Type*} [LinearOrderedField α] [DecidableEq α]
variable {θ σ τ ε : Type*} {N H K m : ℕ}

/-- Embeds `misc_utils.discount` for a batched `N×H` input: entry `(n,t)`
is `rewards[n,t] * gamma^t` (for a 2-D input, `np.indices` indexes the
time axis, axis 1). -/
def discount (rewards : Fin N → Fin H → α) (gamma : α) : Fin N → Fin H → α :=
  fun n t => rewards n t * gamma ^ (t : ℕ)

/-- Modelled from the spec: `tensormat` lives in
`potion/common/torch_utils.py`, which is not among the sources at hand.
The spec describes it as the elementwise product `A ⊙ B` of an `N×H×m`
tensor with an `N×H` matrix, broadcast over the trailing parameter
dimension. -/
def tensormat (A : Fin N → Fin H → Fin m → α) (B : Fin N → Fin H → α) :
    Fin N → Fin H → Fin m → α :=
  fun n t j => A n t j * B n t

/-- Embeds `torch.cumsum(·, 1)` along the time axis, one row at a time. -/
def cumsum (x : Fin H → α) : Fin H → α :=
  fun t => ∑ s, if s ≤ t then x s else 0

/-- Embeds `G = torch.cumsum(tensormat(scores, mask), 1)`. -/
def G_tensor (scores : Fin N → Fin H → Fin m → α) (mask : Fin N → Fin H → α) :
    Fin N → Fin H → Fin m → α :=
  fun n t j => cumsum (fun s => tensormat scores mask n s j) t

/-- Embeds `n_k = torch.sum(mask, dim=0)` followed by the in-place
update `n_k[n_k==0.] = 1.` -/
def n_k (mask : Fin N → Fin H → α) : Fin H → α :=
  fun t => if (∑ n, mask n t) = 0 then 1 else ∑ n, mask n t

/-- Embeds `log_iws = torch.cumsum(target_logps - behavioral_logps, 1)`. -/
def log_iws (target_logps behavioral_logps : Fin N → Fin H → α) :
    Fin N → Fin H → α :=
  fun n t => cumsum (fun s => target_logps n s - behavioral_logps n s) t

/-- Embeds `stabilizers, _ = torch.max(log_iws, dim=1, keepdim=True)`
(`torch.max` over an empty time axis raises, so a positive horizon is
required). -/
def stabilizers [NeZero H] (lw : Fin N → Fin H → α) : Fin N → α :=
  fun n =>
    Finset.univ.sup' ⟨⟨0, Nat.pos_of_ne_zero (NeZero.ne H)⟩, Finset.mem_univ _⟩ (lw n)

/-- Numerator of the Peters baseline:
`torch.sum(tensormat(G ** 2, disc_rewards * torch.exp(2*(log_iws - stabilizers))), 0)`. -/
def peters_num (expf : α → α) (G : Fin N → Fin H → Fin m → α)
    (disc_rewards lw : Fin N → Fin H → α) (stab : Fin N → α) :
    Fin H → Fin m → α :=
  fun t j => ∑ n, G n t j ^ 2 * (disc_rewards n t * expf (2 * (lw n t - stab n)))

/-- Denominator of the Peters baseline:
`torch.sum(tensormat(G ** 2, torch.exp(2*(log_iws - stabilizers))), 0)`. -/
def peters_den (expf : α → α) (G : Fin N → Fin H → Fin m → α)
    (lw : Fin N → Fin H → α) (stab : Fin N → α) : Fin H → Fin m → α :=
  fun t j => ∑ n, G n t j ^ 2 * expf (2 * (lw n t - stab n))

/-- The Peters baseline: elementwise quotient of `peters_num` by
`peters_den`.  A floating-point `0/0` (NaN, floored to `0` by the line
`baseline[baseline != baseline] = 0`) corresponds to the field
convention `0/0 = 0` of the embedding; with a positive exponential the
denominator can only vanish together with the numerator, so a float
±infinity (nonzero over zero) cannot arise here. -/
def peters_baseline (expf : α → α) (G : Fin N → Fin H → Fin m → α)
    (disc_rewards lw : Fin N → Fin H → α) (stab : Fin N → α) :
    Fin H → Fin m → α :=
  fun t j => peters_num expf G disc_rewards lw stab t j / peters_den expf G lw stab t j

/-- Embeds the defensive line `baseline[baseline != baseline] = 0`.  In
exact arithmetic `x ≠ x` never holds, so this is the identity. -/
def nan_floor (b : Fin H → Fin m → α) : Fin H → Fin m → α :=
  fun t j => if b t j ≠ b t j then 0 else b t j

/-- Embeds `values = disc_rewards.unsqueeze(2) - baseline.unsqueeze(0)`. -/
def values_tensor (disc_rewards : Fin N → Fin H → α) (b : Fin H → Fin m → α) :
    Fin N → Fin H → Fin m → α :=
  fun n t j => disc_rewards n t - b t j

/-- Embeds `_samples = torch.sum(tensormat(G * values, mask * torch.exp(log_iws)), 1)`. -/
def samples_tensor (expf : α → α) (G values : Fin N → Fin H → Fin m → α)
    (mask lw : Fin N → Fin H → α) : Fin N → Fin m → α :=
  fun n j => ∑ t, G n t j * values n t j * (mask n t * expf (lw n t))

/-- Embeds `torch.mean(_samples, 0)`. -/
def mean_samples (s : Fin N → Fin m → α) : Fin m → α :=
  fun j => (∑ n, s n j) / (N : α)

/-- A policy object: a mutable flat parameter vector plus deterministic
per-step `score` and fallible `log_pdf`, both read through the *current*
parameter vector (a `none` from `log_pdf` embeds a Python exception
raised during log-density evaluation). -/
structure Policy (θ σ τ : Type*) (m : ℕ) (α : Type*) where
  params : θ
  score : θ → σ → τ → Fin m → α
  log_pdf : θ → σ → τ → Option α

/-- Embeds `policy.get_flat()`. -/
def Policy.get_flat (p : Policy θ σ τ m α) : θ := p.params

/-- Embeds `policy.set_from_flat(x)`. -/
def Policy.set_from_flat (p : Policy θ σ τ m α) (x : θ) : Policy θ σ τ m α :=
  { p with params := x }

/-- A stacked batch of `N` trajectories over horizon `H`: the four
semantic fields plus the trailing extra field of the trajectory tuples
(`none` embeds a batch of 4-tuples, `some` a batch of 5-tuples). -/
structure Batch (σ τ α ε : Type*) (N H : ℕ) where
  states : Fin N → Fin H → σ
  actions : Fin N → Fin H → τ
  rewards : Fin N → Fin H → α
  mask : Fin N → Fin H → α
  extra : Option ε

/-- Errors the estimator can raise. -/
inductive EstError where
  /-- `states, actions, rewards, mask, _ = unpack(batch)` with a tuple
  arity other than five. -/
  | valueError
  /-- an exception raised inside `policy.log_pdf`. -/
  | logPdfError
  /-- `raise NotImplementedError` (unsupported baseline kind). -/
  | notImplementedError
  deriving DecidableEq

/-- The estimator's result: per-trajectory samples or their mean. -/
inductive EstResult (α : Type*) (N m : ℕ) where
  | samples (s : Fin N → Fin m → α)
  | mean (v : Fin m → α)

/-- Evaluates `policy.log_pdf(states, actions)` over the whole batch with
the policy's current parameters; `none` if the evaluation raises at any
entry. -/
def batchLogPdf (p : Policy θ σ τ m α) (states : Fin N → Fin H → σ)
    (actions : Fin N → Fin H → τ) : Option (Fin N → Fin H → α) :=
  if h : ∀ n t, (p.log_pdf p.params (states n t) (actions n t)).isSome
  then some (fun n t => (p.log_pdf p.params (states n t) (actions n t)).get (h n t))
  else none

/-- Embeds `_shallow_off_gpomdp_estimator`.  Returns the result (or the
raised error) together with the policy object as the call leaves it
behind (its parameter vector is the only state the call mutates). -/
def _shallow_off_gpomdp_estimator [NeZero H] (expf : α → α)
    (batch : Batch σ τ α ε N H) (disc : α) (policy : Policy θ σ τ m α)
    (target_params : θ) (baselinekind result : String) :
    Except EstError (EstResult α N m) × Policy θ σ τ m α :=
  match batch.extra with
  | none => (.error .valueError, policy)
  | some _ =>
    let states := batch.states
    let actions := batch.actions
    let disc_rewards := discount batch.rewards disc
    let scores := fun n t => policy.score policy.params (states n t) (actions n t)
    let G := G_tensor scores batch.mask
    let _nk := n_k batch.mask
    match batchLogPdf policy states actions with
    | none => (.error .logPdfError, policy)
    | some behavioral_logps =>
      let behavioral_params := policy.get_flat
      let policy := policy.set_from_flat target_params
      match batchLogPdf policy states actions with
      | none => (.error .logPdfError, policy)
      | some target_logps =>
        let policy := policy.set_from_flat behavioral_params
        let lw := log_iws target_logps behavioral_logps
        let stab := stabilizers lw
        let baseline? : Except EstError (Fin H → Fin m → α) :=
          if baselinekind = "peters" then
            .ok (peters_baseline expf G disc_rewards lw stab)
          else if baselinekind = "zero" then
            .ok (fun _ _ => 0)
          else
            .error .notImplementedError
        match baseline? with
        | .error e => (.error e, policy)
        | .ok baseline0 =>
          let baseline := nan_floor baseline0
          let values := values_tensor disc_rewards baseline
          let s := samples_tensor expf G values batch.mask lw
          if result = "samples" then (.ok (.samples s), policy)
          else (.ok (.mean (mean_samples s)), policy)

/-- The same function with the two dead lines computing `n_k`
removed; used to state that they do not influence the result. -/
def _shallow_off_gpomdp_estimator_no_nk [NeZero H] (expf : α → α)
    (batch : Batch σ τ α ε N H) (disc : α) (policy : Policy θ σ τ m α)
    (target_params : θ) (baselinekind result : String) :
    Except EstError (EstResult α N m) × Policy θ σ τ m α :=
  match batch.extra with
  | none => (.error .valueError, policy)
  | some _ =>
    let states := batch.states
    let actions := batch.actions
    let disc_rewards := discount batch.rewards disc
    let scores := fun n t => policy.score policy.params (states n t) (actions n t)
    let G := G_tensor scores batch.mask
    match batchLogPdf policy states actions with
    | none => (.error .logPdfError, policy)
    | some behavioral_logps =>
      let behavioral_params := policy.get_flat
      let policy := policy.set_from_flat target_params
      match batchLogPdf policy states actions with
      | none => (.error .logPdfError, policy)
      | some target_logps =>
        let policy := policy.set_from_flat behavioral_params
        let lw := log_iws target_logps behavioral_logps
        let stab := stabilizers lw
        let baseline? : Except EstError (Fin H → Fin m → α) :=
          if baselinekind = "peters" then
            .ok (peters_baseline expf G disc_rewards lw stab)
          else if baselinekind = "zero" then
            .ok (fun _ _ => 0)
          else
            .error .notImplementedError
        match baseline? with
        | .error e => (.error e, policy)
        | .ok baseline0 =>
          let baseline := nan_floor baseline0
          let values := values_tensor disc_rewards baseline
          let s := samples_tensor expf G values batch.mask lw
          if result = "samples" then (.ok (.samples s), policy)
          else (.ok (.mean (mean_samples s)), policy)

/-- Modelled from the spec: the on-policy shallow G(PO)MDP estimator
(`gpomdp_estimator` of `potion/estimation/gradients.py`, not among the
sources at hand).  Per the spec's self-normalization property it is the
same combination with every importance weight identically `1`. -/
def _shallow_gpomdp_estimator (batch : Batch σ τ α ε N H) (disc : α)
    (policy : Policy θ σ τ m α) (baselinekind result : String) :
    Except EstError (EstResult α N m) :=
  match batch.extra with
  | none => .error .valueError
  | some _ =>
    let disc_rewards := discount batch.rewards disc
    let scores := fun n t =>
      policy.score policy.params (batch.states n t) (batch.actions n t)
    let G := G_tensor scores batch.mask
    let baseline? : Except EstError (Fin H → Fin m → α) :=
      if baselinekind = "peters" then
        .ok (fun t j => (∑ n, G n t j ^ 2 * disc_rewards n t) / ∑ n, G n t j ^ 2)
      else if baselinekind = "zero" then
        .ok (fun _ _ => 0)
      else
        .error .notImplementedError
    match baseline? with
    | .error e => .error e
    | .ok baseline0 =>
      let baseline := nan_floor baseline0
      let values := values_tensor disc_rewards baseline
      let s := fun n j => ∑ t, G n t j * values n t j * batch.mask n t
      if result = "samples" then .ok (.samples s)
      else .ok (.mean (mean_samples s))

/-! Concrete instances used by counterexamples and witnesses. -/

/-- A tiny total policy over `ℚ`: scalar parameter, trivial state and
action spaces, one parameter component, log-density `0` everywhere. -/
def qPolicy : Policy ℚ Unit Unit 1 ℚ where
  params := 0
  score := fun _ _ _ _ => 1
  log_pdf := fun _ _ _ => some 0

/-- A policy whose log-density evaluation raises for any parameter value
other than `0`, hence under any swapped-in nonzero target parameter. -/
def qPolicyRaising : Policy ℚ Unit Unit 1 ℚ where
  params := 0
  score := fun _ _ _ _ => 1
  log_pdf := fun p _ _ => if p = 0 then some 0 else none

/-- A batch of 4-tuple trajectories (no trailing extra field). -/
def qBatch4 : Batch Unit Unit ℚ Unit 1 1 where
  states := fun _ _ => ()
  actions := fun _ _ => ()
  rewards := fun _ _ => 1
  mask := fun _ _ => 1
  extra := none

/-- The same data as 5-tuple trajectories (trailing extra field present). -/
def qBatch5 : Batch Unit Unit ℚ Unit 1 1 where
  states := fun _ _ => ()
  actions := fun _ _ => ()
  rewards := fun _ _ => 1
  mask := fun _ _ => 1
  extra := some ()

/-- C10: the value returned by the estimator is independent of the
mask-count computation `n_k` (lines 50–51): the program with those two
lines removed returns an equal result on every input. -/
theorem off_gpomdp_nk_dead [NeZero H] (expf : α → α) (batch : Batch σ τ α ε N H)
    (disc : α) (policy : Policy θ σ τ m α) (target_params : θ)
    (baselinekind result : String) :
    _shallow_off_gpomdp_estimator expf batch disc policy target_params
        baselinekind result =
      _shallow_off_gpomdp_estimator_no_nk expf batch disc policy target_params
        baselinekind result := rfl

/-- C9 counterexample: a batch of exactly four-field trajectory tuples
does not succeed — the five-name destructuring of `unpack` raises a
ValueError — contradicting the claim that the trailing field is
optional. -/
theorem off_gpomdp_four_field_batch_fails :
    (_shallow_off_gpomdp_estimator id qBatch4 1 qPolicy 0 "zero" "mean").1 =
      .error .valueError := rfl

/-- C9 amended: the trailing fifth field of the trajectory tuples is
required by the unpacking step (a four-field batch raises ValueError);
when present its value is ignored, so two five-field batches differing
only in the extra field yield identical results. -/
theorem off_gpomdp_extra_field_required [NeZero H] (expf : α → α)
    (b : Batch σ τ α ε N H) (e₁ e₂ : ε) (disc : α) (policy : Policy θ σ τ m α)
    (tp : θ) (bk res : String) :
    _shallow_off_gpomdp_estimator expf
        ({ b with extra := some e₁ } : Batch σ τ α ε N H) disc policy tp bk res =
      _shallow_off_gpomdp_estimator expf
        ({ b with extra := some e₂ } : Batch σ τ α ε N H) disc policy tp bk res ∧
    _shallow_off_gpomdp_estimator expf
        ({ b with extra := none } : Batch σ τ α ε N H) disc policy tp bk res =
      (.error .valueError, policy) :=
  ⟨rfl, rfl⟩

/-- C1 counterexample: when target log-density evaluation (step 3 of the
swap protocol) raises, the call exits with the policy parameters still
set to the target vector — `get_flat` does not equal its pre-call value,
so the saved behavior parameters are not restored unconditionally. -/
theorem off_gpomdp_params_not_restored_on_raise :
    (_shallow_off_gpomdp_estimator id qBatch5 1 qPolicyRaising 1 "zero" "mean").1 =
      .error .logPdfError ∧
    (_shallow_off_gpomdp_estimator id qBatch5 1 qPolicyRaising 1 "zero"
        "mean").2.get_flat ≠ qPolicyRaising.get_flat :=
  ⟨rfl, by decide⟩

/-- C1 amended: on normal return (and on any exit before the parameter
swap) `get_flat` equals its exact pre-call value, but when target
log-density evaluation (step 3 of the swap protocol) raises, the call
exits with the parameters still set to `target_params` — the restore is
skipped, not unconditional. -/
theorem off_gpomdp_param_restoration_amended [NeZero H] (expf : α → α)
    (batch : Batch σ τ α ε N H) (disc : α) (policy : Policy θ σ τ m α)
    (tp : θ) (bk res : String) :
    ((_shallow_off_gpomdp_estimator expf batch disc policy tp bk res).1.isOk = true →
      (_shallow_off_gpomdp_estimator expf batch disc policy tp bk res).2.get_flat =
        policy.get_flat) ∧
    (batch.extra.isSome = true →
      (batchLogPdf policy batch.states batch.actions).isSome = true →
      (batchLogPdf (policy.set_from_flat tp) batch.states batch.actions).isNone = true →
      (_shallow_off_gpomdp_estimator expf batch disc policy tp bk res).2.get_flat =
        tp) := by
  cases hex : batch.extra with
  | none =>
    refine ⟨fun _ => ?_, fun hx _ _ => by simp [hex] at hx⟩
    simp [_shallow_off_gpomdp_estimator, hex]
  | some e =>
    cases hbl : batchLogPdf policy batch.states batch.actions with
    | none =>
      refine ⟨fun _ => ?_, fun _ hb _ => by simp [hbl] at hb⟩
      simp [_shallow_off_gpomdp_estimator, hex, hbl]
    | some bl =>
      cases htl : batchLogPdf (policy.set_from_flat tp) batch.states batch.actions with
      | none =>
        refine ⟨fun hok => ?_, fun _ _ _ => ?_⟩
        · exfalso
          simp only [_shallow_off_gpomdp_estimator, hex, hbl, htl] at hok
          simp [Except.isOk, Except.toBool] at hok
        · simp only [_shallow_off_gpomdp_estimator, hex, hbl, htl]
          simp [Policy.set_from_flat, Policy.get_flat]
      | some tl =>
        refine ⟨fun _ => ?_, fun _ _ ht => by simp [htl] at ht⟩
        simp only [_shallow_off_gpomdp_estimator, hex, hbl, htl]
        by_cases hbk : bk = "peters" <;> by_cases hz : bk = "zero" <;>
          by_cases hres : res = "samples" <;>
            simp [hbk, hz, hres, Policy.set_from_flat, Policy.get_flat]

/-- C3 counterexample: a result mode other than "mean" and "samples"
does not raise ConfigurationError — the call succeeds (no error) and
silently behaves exactly as result mode "mean". -/
theorem off_gpomdp_bogus_result_mode_silently_defaults :
    (_shallow_off_gpomdp_estimator id qBatch5 1 qPolicy 0 "zero" "bogus").1.isOk =
      true ∧
    (_shallow_off_gpomdp_estimator id qBatch5 1 qPolicy 0 "zero" "bogus").1 =
      (_shallow_off_gpomdp_estimator id qBatch5 1 qPolicy 0 "zero" "mean").1 :=
  ⟨rfl, rfl⟩

/-- C3 amended: once execution reaches the baseline dispatch (batch has
the five fields and both log-density evaluations succeed), any baseline
kind other than "peters" and "zero" — including "avg" — raises
NotImplementedError immediately; the result mode is never validated:
every result mode other than "samples" is silently treated as "mean". -/
theorem off_gpomdp_error_modes_amended [NeZero H] (expf : α → α)
    (batch : Batch σ τ α ε N H) (disc : α) (policy : Policy θ σ τ m α)
    (tp : θ)
    (hex : batch.extra.isSome = true)
    (hb : (batchLogPdf policy batch.states batch.actions).isSome = true)
    (ht : (batchLogPdf (policy.set_from_flat tp) batch.states
        batch.actions).isSome = true) :
    (∀ bk res, bk ≠ "peters" → bk ≠ "zero" →
      (_shallow_off_gpomdp_estimator expf batch disc policy tp bk res).1 =
        .error .notImplementedError) ∧
    (∀ bk res, res ≠ "samples" →
      _shallow_off_gpomdp_estimator expf batch disc policy tp bk res =
        _shallow_off_gpomdp_estimator expf batch disc policy tp bk "mean") := by
  rcases Option.isSome_iff_exists.mp hex with ⟨e, he⟩
  rcases Option.isSome_iff_exists.mp hb with ⟨bl, hbl⟩
  rcases Option.isSome_iff_exists.mp ht with ⟨tl, htl⟩
  constructor
  · intro bk res hbk hz
    simp only [_shallow_off_gpomdp_estimator, he, hbl, htl]
    simp [hbk, hz]
  · intro bk res hres
    simp only [_shallow_off_gpomdp_estimator, he, hbl, htl]
    by_cases hbk : bk = "peters" <;> by_cases hz : bk = "zero" <;>
      simp [hbk, hz, hres]

/-- C3 witness: instantiates the amended error-mode theorem at a
concrete call with baseline kind "avg". -/
theorem off_gpomdp_error_modes_amended_witness :
    (_shallow_off_gpomdp_estimator id qBatch5 1 qPolicy 0 "avg" "mean").1 =
      .error .notImplementedError :=
  (off_gpomdp_error_modes_amended id qBatch5 1 qPolicy 0 (by decide) (by decide)
      (by decide)).1 "avg" "mean" (by decide) (by decide)

/-- C1 witness: instantiates the amended restoration theorem at two
concrete calls — one successful (parameters restored) and one whose
target log-density evaluation raises (parameters left at the target). -/
theorem off_gpomdp_param_restoration_amended_witness :
    (_shallow_off_gpomdp_estimator id qBatch5 1 qPolicy 0 "zero"
        "mean").2.get_flat = qPolicy.get_flat ∧
    (_shallow_off_gpomdp_estimator id qBatch5 1 qPolicyRaising 1 "zero"
        "mean").2.get_flat = 1 :=
  ⟨(off_gpomdp_param_restoration_amended id qBatch5 1 qPolicy 0 "zero" "mean").1
      (by decide),
    (off_gpomdp_param_restoration_amended id qBatch5 1 qPolicyRaising 1 "zero"
        "mean").2 (by decide) (by decide) (by decide)⟩

/-- C9 witness: instantiates the extra-field theorem at a concrete batch. -/
theorem off_gpomdp_extra_field_required_witness :
    _shallow_off_gpomdp_estimator id
        ({ qBatch5 with extra := none } : Batch Unit Unit ℚ Unit 1 1) 1 qPolicy 0
        "zero" "mean" =
      (.error .valueError, qPolicy) :=
  (off_gpomdp_extra_field_required id qBatch5 () () 1 qPolicy 0 "zero" "mean").2

/-- C10 witness: instantiates the dead-code theorem at a concrete call. -/
theorem off_gpomdp_nk_dead_witness :
    _shallow_off_gpomdp_estimator id qBatch5 1 qPolicy 0 "zero" "mean" =
      _shallow_off_gpomdp_estimator_no_nk id qBatch5 1 qPolicy 0 "zero" "mean" :=
  off_gpomdp_nk_dead id qBatch5 1 qPolicy 0 "zero" "mean"

/-! Helper lemmas for the unit-importance-weight (self-normalized) case. -/

theorem log_iws_self (x : Fin N → Fin H → α) :
    log_iws x x = fun _ _ => 0 := by
  funext n t
  simp [log_iws, cumsum]

theorem stabilizers_zero [NeZero H] :
    stabilizers (fun _ _ => (0 : α) : Fin N → Fin H → α) = fun _ => 0 := by
  funext n
  simp [stabilizers]

theorem peters_baseline_unit_weights (expf : α → α) (hexp : expf 0 = 1)
    (G : Fin N → Fin H → Fin m → α) (r : Fin N → Fin H → α) :
    peters_baseline expf G r (fun _ _ => 0) (fun _ => 0) =
      fun t j => (∑ n, G n t j ^ 2 * r n t) / ∑ n, G n t j ^ 2 := by
  funext t j
  simp [peters_baseline, peters_num, peters_den, hexp]

theorem samples_tensor_unit_weights (expf : α → α) (hexp : expf 0 = 1)
    (G V : Fin N → Fin H → Fin m → α) (mask : Fin N → Fin H → α) :
    samples_tensor expf G V mask (fun _ _ => 0) =
      fun n j => ∑ t, G n t j * V n t j * mask n t := by
  funext n j
  simp [samples_tensor, hexp]

theorem batchLogPdf_total (p : Policy θ σ τ m α) (lp : θ → σ → τ → α)
    (hlp : p.log_pdf = fun q s a => some (lp q s a))
    (sts : Fin N → Fin H → σ) (acts : Fin N → Fin H → τ) :
    batchLogPdf p sts acts =
      some (fun n t => lp p.params (sts n t) (acts n t)) := by
  unfold batchLogPdf
  rw [hlp]
  simp

/-- C4: for a policy whose log-density is a deterministic pure function
of its current parameter vector, if the target parameters equal
`get_flat()` then every cumulative log importance weight is `0`, every
importance weight `expf(log_iw)` is `1`, and the off-policy estimate
equals the corresponding unit-weight on-policy estimate. -/
theorem off_gpomdp_self_normalization [NeZero H] (expf : α → α)
    (hexp : expf 0 = 1) (batch : Batch σ τ α ε N H) (disc : α)
    (policy : Policy θ σ τ m α) (lp : θ → σ → τ → α)
    (hlp : policy.log_pdf = fun q s a => some (lp q s a))
    (tp : θ) (htp : tp = policy.get_flat) (bk res : String) :
    (∀ n t,
      log_iws (fun n t => lp tp (batch.states n t) (batch.actions n t))
        (fun n t => lp policy.params (batch.states n t) (batch.actions n t)) n t
        = 0 ∧
      expf (log_iws (fun n t => lp tp (batch.states n t) (batch.actions n t))
        (fun n t => lp policy.params (batch.states n t) (batch.actions n t)) n t)
        = 1) ∧
    _shallow_off_gpomdp_estimator expf batch disc policy tp bk res =
      (_shallow_gpomdp_estimator batch disc policy bk res, policy) := by
  subst htp
  have hget : policy.get_flat = policy.params := rfl
  rw [hget]
  have hzero : log_iws
      (fun n t => lp policy.params (batch.states n t) (batch.actions n t))
      (fun n t => lp policy.params (batch.states n t) (batch.actions n t)) =
      fun _ _ => 0 := log_iws_self _
  refine ⟨fun n t => by rw [hzero]; exact ⟨rfl, hexp⟩, ?_⟩
  have hset : policy.set_from_flat policy.params = policy := rfl
  have hbl := batchLogPdf_total policy lp hlp batch.states batch.actions
  cases hex : batch.extra with
  | none => simp [_shallow_off_gpomdp_estimator, _shallow_gpomdp_estimator, hex]
  | some e =>
    simp only [_shallow_off_gpomdp_estimator, _shallow_gpomdp_estimator, hex,
      Policy.get_flat, hset, hbl, hzero, stabilizers_zero,
      peters_baseline_unit_weights expf hexp, samples_tensor_unit_weights expf hexp]
    by_cases hbk : bk = "peters" <;> by_cases hz : bk = "zero" <;>
      by_cases hres : res = "samples" <;> simp [hbk, hz, hres]

/-- C4 witness: instantiates the self-normalization theorem at a
concrete call with identical behavior and target parameters. -/
theorem off_gpomdp_self_normalization_witness :
    _shallow_off_gpomdp_estimator (fun _ => (1 : ℚ)) qBatch5 1 qPolicy 0
        "peters" "mean" =
      (_shallow_gpomdp_estimator qBatch5 1 qPolicy "peters" "mean", qPolicy) :=
  (off_gpomdp_self_normalization (fun _ => (1 : ℚ)) rfl qBatch5 1 qPolicy
      (fun _ _ _ => 0) rfl 0 rfl "peters" "mean").2

/-- In exact arithmetic the NaN-scrub `baseline[baseline != baseline] = 0`
is the identity. -/
theorem nan_floor_eq (b : Fin H → Fin m → α) : nan_floor b = b := by
  funext t j
  simp [nan_floor]

/-- The concrete-scenario policy of the spec: one parameter component,
unit scores, log-density `0` (behavior and target parameters are the
same, so only the difference of the two log-densities matters). -/
def rPolicy : Policy ℝ Unit Unit 1 ℝ where
  params := 0
  score := fun _ _ _ _ => 1
  log_pdf := fun _ _ _ => some 0

/-- The concrete-scenario batch of the spec: `N=1`, `H=2`,
`rewards=[1,1]`, `mask=[1,1]`. -/
def rBatch : Batch Unit Unit ℝ Unit 1 2 where
  states := fun _ _ => ()
  actions := fun _ _ => ()
  rewards := fun _ _ => 1
  mask := fun _ _ => 1
  extra := some ()

/-- C5: on the concrete scenario `N=1`, `H=2`, `paramDim=1`,
`rewards=[1,1]`, `gamma=0.5`, `mask=[1,1]`, unit scores, identical
behavior and target parameters and zero baseline, the intermediates are
`log_iw=[0,0]`, `G=[[1],[2]]`, `disc_rewards=[1,0.5]` and the
per-trajectory estimate is `1*1*1 + 2*0.5*1 = 2.0`. -/
theorem off_gpomdp_concrete_scenario :
    (∀ t : Fin 2, log_iws (N := 1) (H := 2) (fun _ _ => (0 : ℝ)) (fun _ _ => 0)
      0 t = 0) ∧
    G_tensor (fun n t => rPolicy.score rPolicy.params (rBatch.states n t)
      (rBatch.actions n t)) rBatch.mask 0 0 0 = 1 ∧
    G_tensor (fun n t => rPolicy.score rPolicy.params (rBatch.states n t)
      (rBatch.actions n t)) rBatch.mask 0 1 0 = 2 ∧
    discount rBatch.rewards (1 / 2) 0 0 = 1 ∧
    discount rBatch.rewards (1 / 2) 0 1 = 1 / 2 ∧
    _shallow_off_gpomdp_estimator Real.exp rBatch (1 / 2) rPolicy 0 "zero"
        "samples" =
      (.ok (.samples fun _ _ => 2), rPolicy) := by
  have hbl : batchLogPdf rPolicy rBatch.states rBatch.actions =
      some fun _ _ => (0 : ℝ) :=
    batchLogPdf_total rPolicy (fun _ _ _ => 0) rfl rBatch.states rBatch.actions
  have hbl2 : batchLogPdf (rPolicy.set_from_flat 0) rBatch.states
      rBatch.actions = some fun _ _ => (0 : ℝ) := hbl
  refine ⟨?_, ?_, ?_, ?_, ?_, ?_⟩
  · intro t
    simp [log_iws, cumsum]
  · simp only [G_tensor, cumsum, tensormat, rPolicy, rBatch]
    simp +decide only [Fin.sum_univ_two]
    norm_num
  · simp only [G_tensor, cumsum, tensormat, rPolicy, rBatch]
    simp +decide only [Fin.sum_univ_two]
    norm_num
  · norm_num [discount, rBatch]
  · norm_num [discount, rBatch]
  · have hex : rBatch.extra = some () := rfl
    simp only [_shallow_off_gpomdp_estimator, hex, hbl, hbl2,
      if_neg (by decide : ¬("zero" : String) = "peters"),
      if_pos (rfl : ("zero" : String) = "zero"),
      if_pos (rfl : ("samples" : String) = "samples"),
      if_true, if_false,
      Prod.mk.injEq, Except.ok.injEq, EstResult.samples.injEq]
    refine ⟨?_, rfl⟩
    funext n j
    simp only [samples_tensor, values_tensor, G_tensor, tensormat, cumsum,
      log_iws, discount, nan_floor, rPolicy, rBatch]
    simp +decide only [Fin.sum_univ_two]
    norm_num [Real.exp_zero]

/-- C7: with a positive exponential, a Peters-baseline entry whose
denominator is exactly zero has numerator zero as well — the division is
a floating 0/0 (NaN, floored to zero by the scrub; never a surviving
±infinity) — and its final value entering the combination step is zero. -/
theorem off_gpomdp_peters_zero_denominator (expf : α → α)
    (hpos : ∀ x, 0 < expf x) (G : Fin N → Fin H → Fin m → α)
    (r lw : Fin N → Fin H → α) (stab : Fin N → α) (t : Fin H) (j : Fin m)
    (hden : peters_den expf G lw stab t j = 0) :
    peters_num expf G r lw stab t j = 0 ∧
    nan_floor (peters_baseline expf G r lw stab) t j = 0 := by
  unfold peters_den at hden
  have hterm : ∀ n ∈ Finset.univ,
      (0 : α) ≤ G n t j ^ 2 * expf (2 * (lw n t - stab n)) :=
    fun n _ => mul_nonneg (sq_nonneg _) (hpos _).le
  have hall := (Finset.sum_eq_zero_iff_of_nonneg hterm).mp hden
  have hG : ∀ n, G n t j = 0 := by
    intro n
    rcases mul_eq_zero.mp (hall n (Finset.mem_univ n)) with h | h
    · exact pow_eq_zero_iff two_ne_zero |>.mp h
    · exact absurd h (ne_of_gt (hpos _))
  have hnum : peters_num expf G r lw stab t j = 0 := by
    unfold peters_num
    exact Finset.sum_eq_zero fun n _ => by rw [hG n]; ring
  refine ⟨hnum, ?_⟩
  have hb : peters_baseline expf G r lw stab t j = 0 := by
    unfold peters_baseline peters_den
    rw [hden, div_zero]
  simp [nan_floor, hb]

/-- C7 witness: instantiates the zero-denominator theorem at a concrete
baseline computation whose score cumsum is identically zero. -/
theorem off_gpomdp_peters_zero_denominator_witness :
    peters_num (N := 1) (H := 1) (m := 1) (fun _ => (1 : ℚ)) (fun _ _ _ => 0)
      (fun _ _ => 1) (fun _ _ => 0) (fun _ => 0) 0 0 = 0 ∧
    nan_floor (peters_baseline (N := 1) (H := 1) (m := 1) (fun _ => (1 : ℚ))
      (fun _ _ _ => 0) (fun _ _ => 1) (fun _ _ => 0) (fun _ => 0)) 0 0 = 0 :=
  off_gpomdp_peters_zero_denominator (fun _ => 1) (fun _ => one_pos)
    (fun _ _ _ => 0) (fun _ _ => 1) (fun _ _ => 0) (fun _ => 0) 0 0
    (by simp [peters_den])

/-- C8: the stabilizer is the per-trajectory maximum over time of the
cumulative log importance weights, so `log_iw − stabilizer ≤ 0` and the
stabilized exponential `exp(log_iw − stabilizer)` lies in `(0, 1]`. -/
theorem off_gpomdp_stabilizer_bounds [NeZero H]
    (tl bl : Fin N → Fin H → ℝ) (n : Fin N) (t : Fin H) :
    log_iws tl bl n t ≤ stabilizers (log_iws tl bl) n ∧
    (∃ t', stabilizers (log_iws tl bl) n = log_iws tl bl n t') ∧
    0 < Real.exp (log_iws tl bl n t - stabilizers (log_iws tl bl) n) ∧
    Real.exp (log_iws tl bl n t - stabilizers (log_iws tl bl) n) ≤ 1 := by
  have hle : log_iws tl bl n t ≤ stabilizers (log_iws tl bl) n :=
    Finset.le_sup' _ (Finset.mem_univ t)
  refine ⟨hle, ?_, Real.exp_pos _, ?_⟩
  · obtain ⟨t', _, h⟩ := Finset.exists_mem_eq_sup'
      ⟨⟨0, Nat.pos_of_ne_zero (NeZero.ne H)⟩, Finset.mem_univ _⟩
      (log_iws tl bl n)
    exact ⟨t', h⟩
  · rw [Real.exp_le_one_iff, sub_nonpos]
    exact hle

/-- C8 witness: instantiates the stabilizer-bound theorem on a concrete
one-step trajectory. -/
theorem off_gpomdp_stabilizer_bounds_witness :
    log_iws (N := 1) (H := 1) (fun _ _ => (0 : ℝ)) (fun _ _ => 0) 0 0 ≤
      stabilizers (log_iws (N := 1) (H := 1) (fun _ _ => (0 : ℝ))
        (fun _ _ => 0)) 0 ∧
    (∃ t', stabilizers (log_iws (N := 1) (H := 1) (fun _ _ => (0 : ℝ))
        (fun _ _ => 0)) 0 =
      log_iws (N := 1) (H := 1) (fun _ _ => (0 : ℝ)) (fun _ _ => 0) 0 t') ∧
    0 < Real.exp (log_iws (N := 1) (H := 1) (fun _ _ => (0 : ℝ))
        (fun _ _ => 0) 0 0 -
      stabilizers (log_iws (N := 1) (H := 1) (fun _ _ => (0 : ℝ))
        (fun _ _ => 0)) 0) ∧
    Real.exp (log_iws (N := 1) (H := 1) (fun _ _ => (0 : ℝ))
        (fun _ _ => 0) 0 0 -
      stabilizers (log_iws (N := 1) (H := 1) (fun _ _ => (0 : ℝ))
        (fun _ _ => 0)) 0) ≤ 1 :=
  off_gpomdp_stabilizer_bounds (fun _ _ => 0) (fun _ _ => 0) 0 0

/-- The Peters baseline exactly as the spec words it: the validity mask
as an explicit factor of every term of both the numerator and the
denominator sums. -/
def peters_baseline_spec (expf : α → α) (G : Fin N → Fin H → Fin m → α)
    (mask disc_rewards lw : Fin N → Fin H → α) (stab : Fin N → α) :
    Fin H → Fin m → α :=
  fun t j =>
    (∑ n, mask n t * G n t j ^ 2 * disc_rewards n t *
      expf (2 * (lw n t - stab n))) /
    (∑ n, mask n t * G n t j ^ 2 * expf (2 * (lw n t - stab n)))

/-- Unit scores of the C2 counterexample. -/
def cScores : Fin 2 → Fin 2 → Fin 1 → ℝ := fun _ _ _ => 1

/-- Mask of the C2 counterexample: trajectory 0 is valid only at `t=0`,
trajectory 1 at both timesteps. -/
def cMask : Fin 2 → Fin 2 → ℝ := fun n t => if n = 0 ∧ t = 1 then 0 else 1

/-- Rewards of the C2 counterexample: trajectory 0 earns `1` per step,
trajectory 1 earns `0`. -/
def cRewards : Fin 2 → Fin 2 → ℝ := fun n _ => if n = 0 then 1 else 0

/-- C2 counterexample: with unit scores, the mask above, discount `1`,
and identical policies (all log ratios `0`), the baseline the code
computes at `t=1` is `1/5` — trajectory 0 still contributes its stale
cumulative score despite `mask[0,1] = 0` — while the spec's masked
formula yields `0`; the mask is not a factor of the baseline sums. -/
theorem off_gpomdp_peters_mask_counterexample :
    peters_baseline Real.exp (G_tensor cScores cMask)
        (discount cRewards 1) (fun _ _ => 0)
        (stabilizers (fun _ _ => (0 : ℝ) : Fin 2 → Fin 2 → ℝ)) 1 0 ≠
      peters_baseline_spec Real.exp (G_tensor cScores cMask)
        cMask (discount cRewards 1) (fun _ _ => 0)
        (stabilizers (fun _ _ => (0 : ℝ) : Fin 2 → Fin 2 → ℝ)) 1 0 := by
  rw [stabilizers_zero]
  simp only [peters_baseline, peters_baseline_spec, peters_num, peters_den,
    G_tensor, cumsum, tensormat, cScores, cMask, cRewards, discount]
  simp +decide only [Fin.sum_univ_two]
  norm_num [Real.exp_zero]

/-- C2 amended: the Peters baseline carries no explicit mask factor —
`b[t,m] = Σ_n G[n,t,m]²·r_disc[n,t]·w[n,t] / Σ_n G[n,t,m]²·w[n,t]` with
`w[n,t] = exp(2·(log_iw[n,t]−stabilizer[n]))`; the validity mask enters
only through `G` itself, each score increment being multiplied by the
mask before the cumulative sum over time. -/
theorem off_gpomdp_peters_baseline_formula (expf : α → α)
    (scores : Fin N → Fin H → Fin m → α)
    (mask disc_rewards lw : Fin N → Fin H → α) (stab : Fin N → α)
    (t : Fin H) (j : Fin m) :
    peters_baseline expf (G_tensor scores mask) disc_rewards lw stab t j =
      (∑ n, (∑ s, if s ≤ t then scores n s j * mask n s else 0) ^ 2 *
        (disc_rewards n t * expf (2 * (lw n t - stab n)))) /
      (∑ n, (∑ s, if s ≤ t then scores n s j * mask n s else 0) ^ 2 *
        expf (2 * (lw n t - stab n))) := by
  simp [peters_baseline, peters_num, peters_den, G_tensor, cumsum, tensormat]

/-- A cumulative sum over an extended time axis agrees with the original
cumulative sum at every original timestep. -/
theorem cumsum_castAdd (x : Fin (H + K) → α) (y : Fin H → α)
    (hxy : ∀ s : Fin H, x (Fin.castAdd K s) = y s) (t : Fin H) :
    cumsum x (Fin.castAdd K t) = cumsum y t := by
  unfold cumsum
  rw [Fin.sum_univ_add]
  have h2 : ∀ i : Fin K,
      (if Fin.natAdd H i ≤ Fin.castAdd K t then x (Fin.natAdd H i) else 0) = 0 := by
    intro i
    rw [if_neg]
    have ht : (t : ℕ) < H := t.isLt
    simp only [Fin.le_def, Fin.coe_natAdd, Fin.coe_castAdd]
    omega
  rw [Finset.sum_congr rfl fun i _ => h2 i, Finset.sum_const_zero, add_zero]
  refine Finset.sum_congr rfl fun s _ => ?_
  by_cases h : s ≤ t
  · rw [if_pos (show Fin.castAdd K s ≤ Fin.castAdd K t from h), if_pos h, hxy s]
  · rw [if_neg h,
        if_neg (show ¬Fin.castAdd K s ≤ Fin.castAdd K t from fun hc => h hc)]

/-- C6 amended: with the zero baseline and a total log-density,
appending all-zero-mask timesteps to every trajectory (any padding of
states, actions and rewards) does not change the returned mean estimate;
with the Peters baseline the padded steps can shift a trajectory's
stabilizer and change the result. -/
theorem off_gpomdp_mask_extension_zero_baseline [NeZero H] [NeZero (H + K)]
    (expf : α → α) (b : Batch σ τ α ε N H) (ext : Batch σ τ α ε N (H + K))
    (disc : α) (policy : Policy θ σ τ m α) (lp : θ → σ → τ → α)
    (hlp : policy.log_pdf = fun q s a => some (lp q s a)) (tp : θ)
    (hs : ∀ n (t : Fin H), ext.states n (Fin.castAdd K t) = b.states n t)
    (ha : ∀ n (t : Fin H), ext.actions n (Fin.castAdd K t) = b.actions n t)
    (hr : ∀ n (t : Fin H), ext.rewards n (Fin.castAdd K t) = b.rewards n t)
    (hm : ∀ n (t : Fin H), ext.mask n (Fin.castAdd K t) = b.mask n t)
    (hm0 : ∀ n (t : Fin (H + K)), H ≤ (t : ℕ) → ext.mask n t = 0)
    (hex : ext.extra.isSome = true) (hbex : b.extra.isSome = true) :
    (_shallow_off_gpomdp_estimator expf ext disc policy tp "zero" "mean").1 =
      (_shallow_off_gpomdp_estimator expf b disc policy tp "zero" "mean").1 := by
  rcases Option.isSome_iff_exists.mp hex with ⟨e, he⟩
  rcases Option.isSome_iff_exists.mp hbex with ⟨e2, he2⟩
  have hblE := batchLogPdf_total policy lp hlp ext.states ext.actions
  have hblB := batchLogPdf_total policy lp hlp b.states b.actions
  have htlE := batchLogPdf_total (policy.set_from_flat tp) lp hlp
    ext.states ext.actions
  have htlB := batchLogPdf_total (policy.set_from_flat tp) lp hlp
    b.states b.actions
  simp only [_shallow_off_gpomdp_estimator, he, he2, hblE, hblB, htlE, htlB,
    if_neg (by decide : ¬("zero" : String) = "peters"),
    if_pos (rfl : ("zero" : String) = "zero"),
    if_neg (by decide : ¬("mean" : String) = "samples"),
    if_true, if_false, Except.ok.injEq, EstResult.mean.injEq]
  refine congrArg mean_samples (funext fun n => funext fun j => ?_)
  unfold samples_tensor
  rw [Fin.sum_univ_add]
  have hdead : ∀ i : Fin K,
      G_tensor (fun n t => policy.score policy.params (ext.states n t)
          (ext.actions n t)) ext.mask n (Fin.natAdd H i) j *
        values_tensor (discount ext.rewards disc) (nan_floor fun _ _ => 0) n
          (Fin.natAdd H i) j *
        (ext.mask n (Fin.natAdd H i) *
          expf (log_iws
            (fun n t => lp ((policy.set_from_flat tp).params) (ext.states n t)
              (ext.actions n t))
            (fun n t => lp policy.params (ext.states n t) (ext.actions n t))
            n (Fin.natAdd H i))) = 0 := by
    intro i
    rw [hm0 n (Fin.natAdd H i) (by simp [Fin.coe_natAdd]), zero_mul, mul_zero]
  rw [Finset.sum_congr rfl fun i _ => hdead i, Finset.sum_const_zero, add_zero]
  refine Finset.sum_congr rfl fun t _ => ?_
  have hG : G_tensor (fun n t => policy.score policy.params (ext.states n t)
      (ext.actions n t)) ext.mask n (Fin.castAdd K t) j =
      G_tensor (fun n t => policy.score policy.params (b.states n t)
        (b.actions n t)) b.mask n t j := by
    unfold G_tensor
    refine cumsum_castAdd _ _ (fun s => ?_) t
    simp [tensormat, hs n s, ha n s, hm n s]
  have hlw : log_iws
      (fun n t => lp ((policy.set_from_flat tp).params) (ext.states n t)
        (ext.actions n t))
      (fun n t => lp policy.params (ext.states n t) (ext.actions n t)) n
      (Fin.castAdd K t) =
      log_iws
        (fun n t => lp ((policy.set_from_flat tp).params) (b.states n t)
          (b.actions n t))
        (fun n t => lp policy.params (b.states n t) (b.actions n t)) n t := by
    unfold log_iws
    refine cumsum_castAdd _ _ (fun s => ?_) t
    simp [hs n s, ha n s]
  have hv : values_tensor (discount ext.rewards disc)
      (nan_floor fun _ _ => 0) n (Fin.castAdd K t) j =
      values_tensor (discount b.rewards disc) (nan_floor fun _ _ => 0) n t j := by
    unfold values_tensor discount
    rw [hr n t]
    simp [Fin.coe_castAdd, nan_floor_eq]
  rw [hG, hlw, hv, hm n t]

/-- The 5-field batch `qBatch5` extended by one all-zero-mask timestep
(states, actions, rewards padded with the same constants). -/
def qBatchExt : Batch Unit Unit ℚ Unit 1 (1 + 1) where
  states := fun _ _ => ()
  actions := fun _ _ => ()
  rewards := fun _ _ => 1
  mask := fun _ t => if (t : ℕ) = 0 then 1 else 0
  extra := some ()

/-- C6 witness: instantiates the zero-baseline mask-extension theorem on
a concrete one-trajectory batch extended by one padded timestep. -/
theorem off_gpomdp_mask_extension_zero_baseline_witness :
    (_shallow_off_gpomdp_estimator id qBatchExt 1 qPolicy 0 "zero" "mean").1 =
      (_shallow_off_gpomdp_estimator id qBatch5 1 qPolicy 0 "zero" "mean").1 :=
  off_gpomdp_mask_extension_zero_baseline id qBatch5 qBatchExt 1 qPolicy
    (fun _ _ _ => 0) rfl 0 (fun _ _ => rfl) (fun _ _ => rfl) (fun _ _ => rfl)
    (by decide) (by decide) rfl rfl

/-- Evaluation of a `sup'` over `Fin 2`. -/
theorem sup'_univ_fin_two {β : Type*} [LinearOrder β]
    (h : (Finset.univ : Finset (Fin 2)).Nonempty) (f : Fin 2 → β) :
    Finset.univ.sup' h f = max (f 0) (f 1) := by
  refine le_antisymm (Finset.sup'_le _ _ fun i _ => ?_)
    (max_le (Finset.le_sup' _ (Finset.mem_univ 0))
      (Finset.le_sup' _ (Finset.mem_univ 1)))
  fin_cases i
  · exact le_max_left _ _
  · exact le_max_right _ _

/-- Policy of the C6 counterexample over integer-coded states: the
log-density ratio between target parameter `1` and behavior parameter
`0` is `1` at state `5` and `0` elsewhere. -/
def xPolicy : Policy ℝ ℕ Unit 1 ℝ where
  params := 0
  score := fun _ _ _ _ => 1
  log_pdf := fun p s _ => some (if s = 5 then p else 0)

/-- Two one-step trajectories: both start in state `0`; trajectory 0
earns reward `1`, trajectory 1 earns `0`. -/
def xBatch : Batch ℕ Unit ℝ Unit 2 1 where
  states := fun _ _ => 0
  actions := fun _ _ => ()
  rewards := fun n _ => if n = 0 then 1 else 0
  mask := fun _ _ => 1
  extra := some ()

/-- The same batch extended by one all-zero-mask timestep; trajectory 0
is padded with state `5`, trajectory 1 with state `0` (rewards padded
with `0`). -/
def xBatchExt : Batch ℕ Unit ℝ Unit 2 2 where
  states := fun n t => if n = 0 ∧ (t : ℕ) = 1 then 5 else 0
  actions := fun _ _ => ()
  rewards := fun n t => if n = 0 ∧ (t : ℕ) = 0 then 1 else 0
  mask := fun _ t => if (t : ℕ) = 0 then 1 else 0
  extra := some ()

/-- C6 counterexample: `xBatchExt` extends `xBatch` by one timestep whose
mask entries are all zero (original entries untouched), yet with the
Peters baseline the returned mean estimate changes — the padded step
raises trajectory 0's stabilizer, reweighting the baseline from `1/2` to
`e⁻²/(e⁻²+1)`, so the mean moves away from `0`. -/
theorem off_gpomdp_mask_extension_counterexample :
    xBatchExt.mask 0 1 = 0 ∧ xBatchExt.mask 1 1 = 0 ∧
    xBatchExt.mask 0 0 = xBatch.mask 0 0 ∧
    xBatchExt.mask 1 0 = xBatch.mask 1 0 ∧
    xBatchExt.rewards 0 0 = xBatch.rewards 0 0 ∧
    xBatchExt.rewards 1 0 = xBatch.rewards 1 0 ∧
    (_shallow_off_gpomdp_estimator Real.exp xBatchExt 1 xPolicy 1 "peters"
        "mean").1 ≠
      (_shallow_off_gpomdp_estimator Real.exp xBatch 1 xPolicy 1 "peters"
        "mean").1 := by
  refine ⟨by norm_num [xBatchExt], by norm_num [xBatchExt],
    by norm_num [xBatchExt, xBatch], by norm_num [xBatchExt, xBatch],
    by norm_num [xBatchExt, xBatch], by norm_num [xBatchExt, xBatch], ?_⟩
  have hblO : batchLogPdf xPolicy xBatch.states xBatch.actions =
      some fun _ _ => (0 : ℝ) := by
    rw [batchLogPdf_total xPolicy (fun p s _ => if s = 5 then p else 0) rfl]
    refine congrArg some (funext fun n => funext fun t => ?_)
    simp [xBatch]
  have htlO : batchLogPdf (xPolicy.set_from_flat 1) xBatch.states
      xBatch.actions = some fun _ _ => (0 : ℝ) := by
    rw [batchLogPdf_total (xPolicy.set_from_flat 1)
      (fun p s _ => if s = 5 then p else 0) rfl]
    refine congrArg some (funext fun n => funext fun t => ?_)
    simp [xBatch]
  have hblE : batchLogPdf xPolicy xBatchExt.states xBatchExt.actions =
      some fun _ _ => (0 : ℝ) := by
    rw [batchLogPdf_total xPolicy (fun p s _ => if s = 5 then p else 0) rfl]
    refine congrArg some (funext fun n => funext fun t => ?_)
    simp [xBatchExt, xPolicy]
  have htlE : batchLogPdf (xPolicy.set_from_flat 1) xBatchExt.states
      xBatchExt.actions =
      some ((fun n t => if n = 0 ∧ (t : ℕ) = 1 then (1 : ℝ) else 0) :
        Fin 2 → Fin 2 → ℝ) := by
    rw [batchLogPdf_total (xPolicy.set_from_flat 1)
      (fun p s _ => if s = 5 then p else 0) rfl]
    refine congrArg some (funext fun n => funext fun t => ?_)
    by_cases hc : n = 0 ∧ (t : ℕ) = 1 <;>
      simp [xBatchExt, Policy.set_from_flat, xPolicy, hc]
  have hlwE : log_iws
      ((fun n t => if n = 0 ∧ (t : ℕ) = 1 then (1 : ℝ) else 0) :
        Fin 2 → Fin 2 → ℝ) (fun _ _ => 0) =
      ((fun n t => if n = 0 ∧ (t : ℕ) = 1 then (1 : ℝ) else 0) :
        Fin 2 → Fin 2 → ℝ) := by
    funext n t
    fin_cases n <;> fin_cases t <;>
      simp +decide [log_iws, cumsum, Fin.sum_univ_two]
  have hstabE : stabilizers
      ((fun n t => if n = 0 ∧ (t : ℕ) = 1 then (1 : ℝ) else 0) :
        Fin 2 → Fin 2 → ℝ) =
      fun n => if n = 0 then 1 else 0 := by
    funext n
    unfold stabilizers
    rw [sup'_univ_fin_two]
    fin_cases n <;> norm_num
  have h1 : (_shallow_off_gpomdp_estimator Real.exp xBatch 1 xPolicy 1
      "peters" "mean").1 = .ok (.mean fun _ => 0) := by
    have hex : xBatch.extra = some () := rfl
    simp only [_shallow_off_gpomdp_estimator, hex, hblO, htlO,
      log_iws_self, stabilizers_zero,
      peters_baseline_unit_weights Real.exp Real.exp_zero,
      samples_tensor_unit_weights Real.exp Real.exp_zero,
      if_pos (rfl : ("peters" : String) = "peters"),
      if_neg (by decide : ¬("mean" : String) = "samples"),
      if_true, if_false, Except.ok.injEq, EstResult.mean.injEq]
    funext j
    simp only [mean_samples, values_tensor, nan_floor_eq, G_tensor, tensormat,
      cumsum, discount, xPolicy, xBatch]
    simp +decide only [Fin.sum_univ_two, Fin.sum_univ_one]
    norm_num
  have h2 : (_shallow_off_gpomdp_estimator Real.exp xBatchExt 1 xPolicy 1
      "peters" "mean").1 =
      .ok (.mean fun _ =>
        (1 - 2 * (Real.exp (-2) / (Real.exp (-2) + 1))) / 2) := by
    have hex : xBatchExt.extra = some () := rfl
    simp only [_shallow_off_gpomdp_estimator, hex, hblE, htlE, hlwE, hstabE,
      if_pos (rfl : ("peters" : String) = "peters"),
      if_neg (by decide : ¬("mean" : String) = "samples"),
      if_true, if_false, Except.ok.injEq, EstResult.mean.injEq]
    funext j
    simp only [mean_samples, samples_tensor, values_tensor, nan_floor_eq,
      peters_baseline, peters_num, peters_den, G_tensor, tensormat, cumsum,
      discount, xPolicy, xBatchExt]
    simp +decide only [Fin.sum_univ_two, Fin.sum_univ_one]
    norm_num [Real.exp_zero]
    ring_nf
  rw [h1, h2]
  intro heq
  have hv := congrFun (EstResult.mean.inj (Except.ok.inj heq)) 0
  have hlt : Real.exp (-2) < 1 := by
    rw [Real.exp_lt_one_iff]
    norm_num
  have hp : (0 : ℝ) < Real.exp (-2) := Real.exp_pos _
  have hne : Real.exp (-2) + 1 ≠ 0 := by positivity
  rw [div_eq_iff (two_ne_zero)] at hv
  field_simp at hv
  nlinarith [hv, hlt, hp]

end Potion
